import Mathlib

/-!
Verification development for the AegisAIS detection pipeline.

Frontend definitions are translated from the TypeScript sources under
src/frontend and src/unnamed.  The backend Python modules
(backend/app/services/pipeline.py, backend/app/ingest/replay.py,
backend/app/models.py) are not part of the source tree; every definition
standing in for them is marked Modelled from the spec and follows the
wording of spec.md.
-/

namespace AegisAIS

/-! ## Frontend: severity classification (AlertsPanel.tsx, VesselsPanel, MapView.tsx) -/

namespace AlertsPanel

/-- Translated from src/frontend/src/components/AlertsPanel.tsx, getSeverityLevel. -/
def getSeverityLevel (severity : ℚ) : String :=
  if severity ≥ 70 then "high"
  else if severity ≥ 30 then "medium"
  else "low"

/-- Translated from src/frontend/src/components/AlertsPanel.tsx, formatAlertType. -/
def formatAlertType (t : String) : String :=
  if t = "TELEPORT" then "Teleport (integrity)"
  else if t = "TELEPORT_T2" then "Teleport (suspicious)"
  else if t = "TURN_RATE" then "Turn rate (integrity)"
  else if t = "TURN_RATE_T2" then "Turn rate (suspicious)"
  else if t = "POSITION_INVALID" then "Position invalid"
  else if t = "ACCELERATION" then "Acceleration / SOG mismatch"
  else if t = "HEADING_COG_CONSISTENCY" then "Heading / COG consistency"
  else t

/-- Return record of getAlertClassification in AlertsPanel.tsx. -/
structure Classification where
  tier : String
  tierLabel : String
  purpose : String
deriving DecidableEq

/-- Translated from src/frontend/src/components/AlertsPanel.tsx, getAlertClassification. -/
def getAlertClassification (t : String) : Classification :=
  if t = "TELEPORT" then
    ⟨"integrity", "Integrity violation",
      "Detects physically impossible position jumps (spoofing / gross data errors)."⟩
  else if t = "TURN_RATE" then
    ⟨"integrity", "Integrity violation",
      "Detects impossible turn rates that ships cannot physically execute."⟩
  else if t = "POSITION_INVALID" then
    ⟨"integrity", "Integrity violation",
      "Catches clearly invalid positions (out of bounds, (0,0), or stuck while SOG says moving)."⟩
  else if t = "HEADING_COG_CONSISTENCY" then
    ⟨"integrity", "Integrity violation",
      "Flags wild heading/COG changes at high speed that break basic kinematics."⟩
  else if t = "TELEPORT_T2" then
    ⟨"suspicious", "Suspicious / data‑quality",
      "Highlights medium‑speed jumps that are unusual but not full hard teleports."⟩
  else if t = "TURN_RATE_T2" then
    ⟨"suspicious", "Suspicious / data‑quality",
      "Surfaces moderate but unusual turns that may indicate track noise or manoeuvring."⟩
  else if t = "ACCELERATION" then
    ⟨"suspicious", "Suspicious / data‑quality",
      "Compares reported SOG vs track‑implied speed to find inconsistent / noisy data."⟩
  else
    ⟨"suspicious", "Suspicious / data‑quality",
      "Generic anomaly or data‑quality signal."⟩

end AlertsPanel

namespace VesselsPanel

/-- Translated from src/unnamed/part_004 (VesselsPanel.tsx), getSeverityLevel. -/
def getSeverityLevel (severity : ℚ) : String :=
  if severity ≥ 70 then "high"
  else if severity ≥ 30 then "medium"
  else "low"

end VesselsPanel

namespace MapView

/-- Translated from src/frontend/src/components/MapView.tsx, getSeverityColor. -/
def getSeverityColor (severity : ℚ) : String :=
  if severity ≥ 70 then "#dc2626"
  else if severity ≥ 30 then "#f59e0b"
  else "#10b981"

end MapView

/-- Helper mapping a severity-level name to the color MapView uses for it. -/
def severityColorOfLevel (level : String) : String :=
  if level = "high" then "#dc2626"
  else if level = "medium" then "#f59e0b"
  else "#10b981"

/-! ## Frontend: ReplayStatus record shape -/

/-- Translated from src/frontend/src/api/client.ts, interface ReplayStatus
(second copy of client.ts, lines 194-199). -/
structure ReplayStatus where
  running : Bool
  processed : Nat
  last_timestamp : Option String
  stop_requested : Bool
deriving DecidableEq

/-- Field names of interface ReplayStatus in src/frontend/src/api/client.ts,
in declaration order. -/
def clientReplayStatusFields : List String :=
  ["running", "processed", "last_timestamp", "stop_requested"]

/-- Field names of interface ReplayStatus in src/unnamed/part_002 (types/index.ts),
in declaration order. -/
def typesReplayStatusFields : List String :=
  ["running", "processed", "last_timestamp", "stop_requested"]

/-- Keys of the GET /v1/replay/status response example in
src/API_DOCUMENTATION.md, in order of appearance. -/
def apiDocReplayStatusFields : List String :=
  ["running", "processed", "last_timestamp", "stop_requested"]

/-- The seven alert type names, from the filter options in AlertsPanel.tsx
(lines 49-57) and the Alert Types section of src/API_DOCUMENTATION.md. -/
def alertTypes : List String :=
  ["TELEPORT", "TELEPORT_T2", "POSITION_INVALID", "TURN_RATE",
   "TURN_RATE_T2", "ACCELERATION", "HEADING_COG_CONSISTENCY"]

/-- The four alert status values, from the Alert Status section of
src/API_DOCUMENTATION.md and spec section 3. -/
def alertStatuses : List String :=
  ["new", "reviewed", "resolved", "false_positive"]

/-! ## Data model (backend is missing from src; modelled from the spec) -/

/-- Modelled from the spec: the AisPoint record of spec section 3; the backend
module backend/app/models.py is not under src.  Timestamps are rational
numbers of seconds; nullable fields are Option. -/
structure AisPoint where
  mmsi : String
  timestamp : ℚ
  lat : ℚ
  lon : ℚ
  sog : Option ℚ
  cog : Option ℚ
  heading : Option ℚ
deriving DecidableEq

/-! ### Association-list helpers (keyed stores: cooldown table, track store) -/

/-- Lookup in an association list by key. -/
def alookup {α β : Type} [DecidableEq α] : List (α × β) → α → Option β
  | [], _ => none
  | (k, v) :: rest, key => if k = key then some v else alookup rest key

/-- Insert-or-update in an association list by key (primary-key upsert). -/
def aupsert {α β : Type} [DecidableEq α] : List (α × β) → α → β → List (α × β)
  | [], key, val => [(key, val)]
  | (k, v) :: rest, key, val =>
      if k = key then (key, val) :: rest else (k, v) :: aupsert rest key val

/-! ### Feature functions (spec section 4.3) -/

/-- Modelled from the spec: dt_sec of spec section 4.3 (backend feature module
is not under src). -/
def dt_sec (p q : AisPoint) : ℚ := q.timestamp - p.timestamp

/-- Knots per metre-per-second conversion constant of spec section 4.3. -/
def knots_per_mps : ℚ := 1.9438445

/-- Modelled from the spec: implied_speed_kn of spec section 4.3, as a function
of the already-computed great-circle distance (the haversine distance itself is
transcendental and is passed in as a parameter throughout). -/
def implied_speed_kn (distance_m dt : ℚ) : ℚ := distance_m / dt * knots_per_mps

/-- Reduce an angle into the half-open interval from 0 to 360. -/
def qmod360 (x : ℚ) : ℚ := x - 360 * ⌊x / 360⌋

/-- Modelled from the spec: angle_diff_deg of spec section 4.3, the smallest
signed difference modulo 360, in the closed interval from -180 to 180. -/
def angle_diff_deg (a b : ℚ) : ℚ :=
  let d := qmod360 (b - a)
  if d > 180 then d - 360 else d

/-- Modelled from the spec: turn_rate_deg_s of spec section 4.3 (only used
under a guard dt > 0). -/
def turn_rate_deg_s (a b dt : ℚ) : ℚ := |angle_diff_deg a b| / dt

/-- Clamp x into the closed interval from lo to hi. -/
def clamp (x lo hi : ℚ) : ℚ := max lo (min x hi)

/-! ### Rule engine (spec section 4.4; backend pipeline.py is not under src) -/

/-- Threshold constants of spec section 6, Configuration. -/
def teleport_speed_knots_short : ℚ := 60

/-- Medium-gap teleport speed threshold (spec section 6, Configuration). -/
def teleport_speed_knots_medium : ℚ := 100

/-- Maximum plausible turn rate in degrees per second (spec section 6). -/
def max_turn_rate_deg_per_sec : ℚ := 3

/-- Minimum speed for the turn-rate check, in knots (spec section 6). -/
def min_speed_for_turn_check_knots : ℚ := 10

/-- Modelled from the spec: the TELEPORT threshold that applies at a given
time gap (60 kn for the short tier, 100 kn for the medium tier). -/
def teleportThreshold (dt : ℚ) : ℚ :=
  if dt ≤ 120 then teleport_speed_knots_short else teleport_speed_knots_medium

/-- A candidate alert as produced by one rule: rule type, severity, and the
tier / reason evidence fields the claims refer to. -/
structure Candidate where
  type : String
  severity : ℚ
  tier : Option String
  reason : Option String
deriving DecidableEq

/-- Persisted alert severity is an integer (spec section 3); modelled from the
spec as the floor of the rational severity. -/
def severityInt (c : Candidate) : ℤ := ⌊c.severity⌋

/-- Modelled from the spec: rule 1 TELEPORT of spec section 4.4, as a function
of the time gap and the implied speed. -/
def teleportRule (dt speed : ℚ) : Option Candidate :=
  if 0 < dt ∧ dt ≤ 120 ∧ teleport_speed_knots_short ≤ speed then
    some ⟨"TELEPORT",
      clamp (40 + 0.4 * (speed - teleport_speed_knots_short)) 70 100,
      some "short", none⟩
  else if 120 < dt ∧ dt ≤ 1800 ∧ teleport_speed_knots_medium ≤ speed then
    some ⟨"TELEPORT",
      clamp (40 + 0.4 * (speed - teleport_speed_knots_medium)) 70 100,
      some "medium", none⟩
  else none

/-- Modelled from the spec: rule 2 TELEPORT_T2 of spec section 4.4. -/
def teleportT2Rule (dt speed distance_m : ℚ) : Option Candidate :=
  if 0 < dt ∧ dt ≤ 1800 ∧ 25 ≤ speed ∧ speed < teleportThreshold dt then
    some ⟨"TELEPORT_T2", clamp (15 + 0.3 * speed) 15 60,
      some (if dt ≤ 120 then "short" else "medium"), none⟩
  else if 1800 < dt ∧ 20 * dt < distance_m then
    some ⟨"TELEPORT_T2", clamp (15 + 0.3 * speed) 15 60,
      some "long_gap", none⟩
  else none

/-- Modelled from the spec: rule 3 POSITION_INVALID of spec section 4.4
(severity 75 for out-of-bounds and null-island, 70 for stuck). -/
def positionInvalidRule (prev : Option AisPoint) (curr : AisPoint)
    (distance_m dt : ℚ) : Option Candidate :=
  if curr.lat < -90 ∨ 90 < curr.lat ∨ curr.lon < -180 ∨ 180 < curr.lon then
    some ⟨"POSITION_INVALID", 75, none, some "out_of_bounds"⟩
  else if |curr.lat| < 0.001 ∧ |curr.lon| < 0.001 then
    some ⟨"POSITION_INVALID", 75, none, some "null_island"⟩
  else
    match prev with
    | some p =>
        if distance_m < 1 ∧ 1 ≤ (p.sog.getD 0) ∧ p.sog.isSome ∧ 60 ≤ dt then
          some ⟨"POSITION_INVALID", 70, none, some "stuck"⟩
        else none
    | none => none

/-- Heading with the AIS unavailable sentinel 511 treated as missing
(spec section 4.4, numeric edge cases). -/
def effHeading (p : AisPoint) : Option ℚ :=
  match p.heading with
  | some h => if h = 511 then none else some h
  | none => none

/-- Modelled from the spec: the angle-channel selection of rules 4, 5 and 7:
heading if both points carry one, else cog if both carry one, else none. -/
def angleChannel (p q : AisPoint) : Option (String × ℚ × ℚ) :=
  match effHeading p, effHeading q with
  | some a, some b => some ("heading", a, b)
  | _, _ =>
      match p.cog, q.cog with
      | some a, some b => some ("cog", a, b)
      | _, _ => none

/-- Speed used by the turn-rate and consistency checks: reported sog if
present, otherwise the implied speed (spec section 4.4). -/
def speedForCheck (curr : AisPoint) (implied : ℚ) : ℚ :=
  match curr.sog with
  | some s => s
  | none => implied

/-- Modelled from the spec: rule 4 TURN_RATE of spec section 4.4. -/
def turnRateRule (p curr : AisPoint) (dt implied : ℚ) : Option Candidate :=
  match angleChannel p curr with
  | none => none
  | some (_, a, b) =>
      if 0 < dt ∧ dt ≤ 120 ∧ min_speed_for_turn_check_knots ≤ speedForCheck curr implied
          ∧ max_turn_rate_deg_per_sec ≤ turn_rate_deg_s a b dt then
        some ⟨"TURN_RATE",
          clamp (50 + 10 * (turn_rate_deg_s a b dt - max_turn_rate_deg_per_sec)) 70 95,
          some "normal", none⟩
      else none

/-- Modelled from the spec: rule 5 TURN_RATE_T2 of spec section 4.4, firing
only when rule 4 did not. -/
def turnRateT2Rule (p curr : AisPoint) (dt implied : ℚ) : Option Candidate :=
  match angleChannel p curr with
  | none => none
  | some (_, a, b) =>
      if 0 < dt ∧ (turnRateRule p curr dt implied).isNone
          ∧ 1 ≤ turn_rate_deg_s a b dt ∧ 5 ≤ speedForCheck curr implied then
        some ⟨"TURN_RATE_T2", clamp (25 + 10 * turn_rate_deg_s a b dt) 25 55,
          some (if speedForCheck curr implied < 10 then "low_speed" else "normal"),
          none⟩
      else none

/-- Modelled from the spec: rule 6 ACCELERATION of spec section 4.4. -/
def accelerationRule (p curr : AisPoint) (dt implied : ℚ) : Option Candidate :=
  match p.sog, curr.sog with
  | some ps, some cs =>
      if 1 < dt ∧ dt ≤ 300 ∧ (15 ≤ |cs - implied| ∨ 1 ≤ |cs - ps| / dt) then
        some ⟨"ACCELERATION", clamp (20 + |cs - implied|) 25 85, none, none⟩
      else none
  | _, _ => none

/-- Modelled from the spec: rule 7 HEADING_COG_CONSISTENCY of spec
section 4.4. -/
def headingCogRule (p curr : AisPoint) (dt implied : ℚ) : Option Candidate :=
  match effHeading curr, curr.cog with
  | some h, some c =>
      (match angleChannel p curr with
       | none => none
       | some (_, a, b) =>
           if 0 < dt ∧ min_speed_for_turn_check_knots ≤ speedForCheck curr implied
               ∧ 90 ≤ |angle_diff_deg h c| ∧ 2 ≤ turn_rate_deg_s a b dt then
             some ⟨"HEADING_COG_CONSISTENCY",
               clamp (60 + 0.2 * |angle_diff_deg h c|) 70 85, none, none⟩
           else none)
  | _, _ => none

/-- Modelled from the spec: the fixed-order rule evaluation of spec
section 4.4, with the great-circle distance supplied as a parameter.
Without a prev point only rule 3 can fire. -/
def evalRules (prev : Option AisPoint) (curr : AisPoint) (distance_m : ℚ) :
    List Candidate :=
  match prev with
  | none => (positionInvalidRule none curr distance_m 0).toList
  | some p =>
      let dt := dt_sec p curr
      let implied := if 0 < dt then implied_speed_kn distance_m dt else 0
      [teleportRule dt implied,
       teleportT2Rule dt implied distance_m,
       positionInvalidRule (some p) curr distance_m dt,
       turnRateRule p curr dt implied,
       turnRateT2Rule p curr dt implied,
       accelerationRule p curr dt implied,
       headingCogRule p curr dt implied].filterMap id

/-! ### Cooldown gate (spec section 4.5; backend pipeline.py is not under src) -/

/-- Primary key of the alert_cooldowns table: (vessel identifier, rule type). -/
abbrev CooldownKey := String × String

/-- Default cooldown interval in source-timestamp seconds (spec section 6,
Configuration). -/
def alert_cooldown_sec : ℚ := 300

/-- Modelled from the spec: the acceptance test of spec section 4.5 — accept
iff no cooldown row exists for the key, or the candidate timestamp is at least
the interval after the stored last_alert_timestamp. -/
def cooldownAccept (cd : ℚ) (rows : List (CooldownKey × ℚ)) (k : CooldownKey)
    (t : ℚ) : Bool :=
  match alookup rows k with
  | none => true
  | some last => cd ≤ t - last

/-- Modelled from the spec: run the cooldown gate over a list of candidates
(key, source timestamp), threading the cooldown table; acceptance upserts the
row with the new timestamp.  Returns the accepted candidates in order. -/
def runCooldown (cd : ℚ) (rows : List (CooldownKey × ℚ)) :
    List (CooldownKey × ℚ) → List (CooldownKey × ℚ)
  | [] => []
  | (k, t) :: cs =>
      if cooldownAccept cd rows k t then
        (k, t) :: runCooldown cd (aupsert rows k t) cs
      else
        runCooldown cd rows cs

/-- The source timestamps of the accepted alerts for one (vessel, rule) key,
starting from an empty cooldown table. -/
def acceptedTs (cd : ℚ) (cs : List (CooldownKey × ℚ)) (key : CooldownKey) :
    List ℚ :=
  ((runCooldown cd [] cs).filter (fun c => decide (c.1 = key))).map (fun c => c.2)

/-! ### Track store (spec section 4.2; backend pipeline.py is not under src) -/

/-- Ring capacity of the per-vessel track store (spec section 6,
Configuration). -/
def track_window_size : Nat := 5

/-- Modelled from the spec: append a point to a vessel ring, evicting the
oldest point when the capacity is exceeded (spec section 4.2). -/
def pushRing (ring : List AisPoint) (p : AisPoint) : List AisPoint :=
  let r := ring ++ [p]
  if track_window_size < r.length then r.drop (r.length - track_window_size)
  else r

/-- A session track store: vessel identifier to ring, as an association
list (the backend keeps a dict of deques). -/
abbrev TrackStore := List (String × List AisPoint)

/-- The ring currently held for a vessel (empty when absent). -/
def getRing (st : TrackStore) (m : String) : List AisPoint :=
  (alookup st m).getD []

/-- Modelled from the spec: the push operation of spec section 4.2 — appends
the point to its vessel ring and returns the ring after insertion, oldest
first. -/
def pushPoint (st : TrackStore) (p : AisPoint) : TrackStore × List AisPoint :=
  let r := pushRing (getRing st p.mmsi) p
  (aupsert st p.mmsi r, r)

/-- Apply a sequence of pushes to a track store. -/
def runPushes (st : TrackStore) : List AisPoint → TrackStore
  | [] => st
  | p :: ps => runPushes (pushPoint st p).1 ps

/-! ### Alerts and update_alert_status (spec sections 3 and 6) -/

/-- Modelled from the spec: the Alert record of spec section 3 (the backend
model and route handler are not under src); evidence is a semi-structured
key-value mapping. -/
structure Alert where
  id : Nat
  timestamp : ℚ
  mmsi : String
  type : String
  severity : ℤ
  summary : String
  evidence : List (String × String)
  status : String
  notes : Option String
deriving DecidableEq

/-- Modelled from the spec: alert creation; every alert starts with
status new (spec section 3). -/
def mkAlert (id : Nat) (timestamp : ℚ) (mmsi : String) (c : Candidate)
    (summary : String) (evidence : List (String × String)) : Alert :=
  ⟨id, timestamp, mmsi, c.type, severityInt c, summary, evidence, "new", none⟩

/-- Modelled from the spec: update_alert_status of spec section 6 — mutates
only status and notes for a known status value and rejects any other status,
leaving the alert unchanged. -/
def update_alert_status (a : Alert) (status : String) (notes : Option String) :
    Except String Alert :=
  if status ∈ alertStatuses then
    .ok { a with status := status, notes := notes }
  else
    .error "invalid status"

/-! ### Persistence unit and replay counters (spec sections 4.6 and 4.8) -/

/-- Modelled from the spec: the VesselLatest row of spec section 3. -/
structure VesselLatestRow where
  timestamp : ℚ
  lat : ℚ
  lon : ℚ
  sog : Option ℚ
  cog : Option ℚ
  heading : Option ℚ
  last_alert_severity : ℤ
deriving DecidableEq

/-- Modelled from the spec: the persisted database state touched by one
ingestion unit (spec sections 3 and 4.6). -/
structure Db where
  vessels_latest : List (String × VesselLatestRow)
  vessel_positions : List AisPoint
  alerts : List Alert
  alert_cooldowns : List (CooldownKey × ℚ)
deriving DecidableEq

/-- Step (a) of the unit: upsert VesselLatest (spec section 4.6), keeping the
existing last_alert_severity. -/
def upsertLatest (db : Db) (pt : AisPoint) : Db :=
  let prevSev := match alookup db.vessels_latest pt.mmsi with
    | some row => row.last_alert_severity
    | none => 0
  let row : VesselLatestRow :=
    ⟨pt.timestamp, pt.lat, pt.lon, pt.sog, pt.cog, pt.heading, prevSev⟩
  { db with vessels_latest := aupsert db.vessels_latest pt.mmsi row }

/-- Step (b) of the unit: insert the VesselPosition history row. -/
def insertPosition (db : Db) (pt : AisPoint) : Db :=
  { db with vessel_positions := db.vessel_positions ++ [pt] }

/-- Step (c) of the unit: insert each accepted alert and upsert its cooldown
row (spec section 4.6). -/
def insertAlerts (db : Db) (pt : AisPoint) (accepted : List Candidate) : Db :=
  { db with
    alerts := db.alerts ++ accepted.map
      (fun c => mkAlert (db.alerts.length) pt.timestamp pt.mmsi c "" []),
    alert_cooldowns := accepted.foldl
      (fun rows c => aupsert rows (pt.mmsi, c.type) pt.timestamp)
      db.alert_cooldowns }

/-- Step (d) of the unit: update VesselLatest.last_alert_severity to the
maximum of the existing value and the accepted severities (spec
section 4.6). -/
def updateMaxSeverity (db : Db) (pt : AisPoint) (accepted : List Candidate) : Db :=
  match alookup db.vessels_latest pt.mmsi with
  | none => db
  | some row =>
      let m := accepted.foldl (fun acc c => max acc (severityInt c))
        row.last_alert_severity
      { db with vessels_latest :=
          aupsert db.vessels_latest pt.mmsi { row with last_alert_severity := m } }

/-- All four steps applied in order with no failure. -/
def fullApply (db : Db) (pt : AisPoint) (accepted : List Candidate) : Db :=
  updateMaxSeverity (insertAlerts (insertPosition (upsertLatest db pt) pt)
    pt accepted) pt accepted

/-- Modelled from the spec: the atomic per-point unit of spec section 4.6.
The oracle fail says which of the four storage steps is rejected by the
database (a PersistenceError); the Except value is the transaction — an error
anywhere commits nothing. -/
def applyUnit (fail : Nat → Bool) (db : Db) (pt : AisPoint)
    (accepted : List Candidate) : Except String Db :=
  if fail 0 then .error "upsert VesselLatest failed" else
  let db1 := upsertLatest db pt
  if fail 1 then .error "insert VesselPosition failed" else
  let db2 := insertPosition db1 pt
  if fail 2 then .error "insert Alert failed" else
  let db3 := insertAlerts db2 pt accepted
  if fail 3 then .error "update last_alert_severity failed" else
  .ok (updateMaxSeverity db3 pt accepted)

/-- Per-session replay counters (spec section 4.8): the progress counter
increments after each attempted unit, failed units are also counted as
skipped. -/
structure ReplayCounters where
  processed : Nat
  skipped : Nat
deriving DecidableEq

/-- Modelled from the spec: ingest one point — commit the unit on success,
keep the previous state and count the point as skipped on failure (spec
sections 4.6 and 4.8). -/
def ingestPoint (fail : Nat → Bool) (db : Db) (c : ReplayCounters)
    (pt : AisPoint) (accepted : List Candidate) : Db × ReplayCounters :=
  match applyUnit fail db pt accepted with
  | .ok db2 => (db2, ⟨c.processed + 1, c.skipped⟩)
  | .error _ => (db, ⟨c.processed + 1, c.skipped + 1⟩)

/-- One replay work item: the failure oracle the storage layer answers for
this point, the point, and its accepted candidate alerts. -/
abbrev ReplayItem := (Nat → Bool) × AisPoint × List Candidate

/-- Modelled from the spec: the replay loop continues with the next point
whatever happened to the previous unit (spec section 4.6). -/
def replayRun (db : Db) (c : ReplayCounters) : List ReplayItem → Db × ReplayCounters
  | [] => (db, c)
  | (fail, pt, accepted) :: rest =>
      let r := ingestPoint fail db c pt accepted
      replayRun r.1 r.2 rest

/-! ### Replay driver control (spec section 4.8; backend replay.py is not
under src) -/

/-- Minimum accepted speedup (spec sections 4.8 and 6: speedup at least
0.1; speedup 0 is rejected). -/
def min_speedup : ℚ := 0.1

/-- Driver phases of the state machine of spec section 4.8. -/
inductive ReplayPhase where
  | Idle
  | Starting
  | Running
  | Stopping
deriving DecidableEq

/-- Modelled from the spec: start_replay validation of spec sections 4.8
and 6 — reject when not Idle, reject a speedup below 0.1 without changing
state, otherwise transition to Running. -/
def start_replay (st : ReplayPhase) (speedup : ℚ) :
    ReplayPhase × Option String :=
  if st ≠ ReplayPhase.Idle then (st, some "already running")
  else if speedup < min_speedup then (st, some "speedup must be at least 0.1")
  else (ReplayPhase.Running, none)

/-- Modelled from the spec: the pacing delay of spec section 4.8 — the gap of
source time divided by the speedup, minus the wall-clock time already
elapsed. -/
def pacingDelay (gap speedup elapsed : ℚ) : ℚ := gap / speedup - elapsed

/-- The non-negative time the driver actually sleeps. -/
def sleepTime (gap speedup elapsed : ℚ) : ℚ := max 0 (pacingDelay gap speedup elapsed)

/-- The four alert types AlertsPanel classifies as tier integrity. -/
def integrityTypes : List String :=
  ["TELEPORT", "TURN_RATE", "POSITION_INVALID", "HEADING_COG_CONSISTENCY"]

/-- Scenario S1 first point (spec section 8). -/
def s1p1 : AisPoint := ⟨"200000001", 0, 40, -70, some 12, some 90, some 90⟩

/-- Scenario S1 second point, 60 seconds later and 2 degrees of longitude
east (spec section 8). -/
def s1p2 : AisPoint := ⟨"200000001", 60, 40, -68, some 12, some 90, some 90⟩

/-- Scenario S1 great-circle distance in metres (about 170 km, spec
section 8). -/
def s1distance_m : ℚ := 170000

/-- A sample point of one fixed vessel at a given timestamp, used to
exercise the track ring. -/
def wpt (i : ℚ) : AisPoint := ⟨"123456789", i, 0, 0, none, none, none⟩

/-! ## Theorems -/

/-- C9: the severity classification used by the alert list, the vessel list
and the map agrees on the thresholds: high iff severity at least 70, medium
iff severity in the interval from 30 up to but excluding 70, low iff
severity below 30; the three components use the same cut points. -/
theorem severity_levels_consistent :
    ∀ s : ℚ,
      (AlertsPanel.getSeverityLevel s = "high" ↔ 70 ≤ s) ∧
      (AlertsPanel.getSeverityLevel s = "medium" ↔ 30 ≤ s ∧ s < 70) ∧
      (AlertsPanel.getSeverityLevel s = "low" ↔ s < 30) ∧
      VesselsPanel.getSeverityLevel s = AlertsPanel.getSeverityLevel s ∧
      MapView.getSeverityColor s =
        severityColorOfLevel (AlertsPanel.getSeverityLevel s) := by
  intro s
  rcases le_or_lt 70 s with h70 | h70
  · have e : AlertsPanel.getSeverityLevel s = "high" := by
      simp [AlertsPanel.getSeverityLevel, h70]
    refine ⟨by simp [e, h70], ?_, ?_, ?_, ?_⟩
    · simp only [e]
      constructor
      · intro h; exact absurd h (by decide)
      · rintro ⟨-, hlt⟩; exact absurd h70 (not_le.mpr hlt)
    · simp only [e]
      constructor
      · intro h; exact absurd h (by decide)
      · intro hlt; exact absurd h70 (not_le.mpr (hlt.trans (by norm_num)))
    · simp [VesselsPanel.getSeverityLevel, AlertsPanel.getSeverityLevel, h70]
    · simp [MapView.getSeverityColor, severityColorOfLevel, e, h70]
  · rcases le_or_lt 30 s with h30 | h30
    · have e : AlertsPanel.getSeverityLevel s = "medium" := by
        simp [AlertsPanel.getSeverityLevel, h30, not_le.mpr h70]
      refine ⟨?_, by simp [e, h30, h70], ?_, ?_, ?_⟩
      · simp only [e]
        constructor
        · intro h; exact absurd h (by decide)
        · intro h; exact absurd h70 (not_lt.mpr h)
      · simp only [e]
        constructor
        · intro h; exact absurd h (by decide)
        · intro hlt; exact absurd h30 (not_le.mpr hlt)
      · simp [VesselsPanel.getSeverityLevel, AlertsPanel.getSeverityLevel,
          h30, not_le.mpr h70]
      · simp [MapView.getSeverityColor, severityColorOfLevel, e, h30,
          not_le.mpr h70]
    · have e : AlertsPanel.getSeverityLevel s = "low" := by
        simp [AlertsPanel.getSeverityLevel, not_le.mpr h70, not_le.mpr h30]
      refine ⟨?_, ?_, by simp [e, h30], ?_, ?_⟩
      · simp only [e]
        constructor
        · intro h; exact absurd h (by decide)
        · intro h; exact absurd h70 (not_lt.mpr h)
      · simp only [e]
        constructor
        · intro h; exact absurd h (by decide)
        · rintro ⟨hge, -⟩; exact absurd h30 (not_lt.mpr hge)
      · simp [VesselsPanel.getSeverityLevel, AlertsPanel.getSeverityLevel,
          not_le.mpr h70, not_le.mpr h30]
      · simp [MapView.getSeverityColor, severityColorOfLevel, e,
          not_le.mpr h70, not_le.mpr h30]

/-- C10 counterexample: TELEPORT_T2 is outside the four integrity types, so
the claim says it gets the generic purpose; its actual purpose text is the
specific medium-speed-jumps one, not the generic one. -/
theorem getAlertClassification_t2_purpose_not_generic :
    "TELEPORT_T2" ∉ integrityTypes ∧
    (AlertsPanel.getAlertClassification "TELEPORT_T2").tier = "suspicious" ∧
    (AlertsPanel.getAlertClassification "TELEPORT_T2").purpose ≠
      "Generic anomaly or data‑quality signal." := by
  refine ⟨by decide, by decide, by decide⟩

/-- C10 amended: getAlertClassification is total over strings, always returns
tier integrity or suspicious, returns integrity exactly on the four listed
types, suspicious on everything else, and falls back to the generic purpose
exactly for strings outside the seven-value alert-type enum. -/
theorem getAlertClassification_total :
    ∀ t : String,
      ((AlertsPanel.getAlertClassification t).tier = "integrity" ∨
        (AlertsPanel.getAlertClassification t).tier = "suspicious") ∧
      ((AlertsPanel.getAlertClassification t).tier = "integrity" ↔
        t ∈ integrityTypes) ∧
      (t ∉ alertTypes →
        (AlertsPanel.getAlertClassification t).purpose =
          "Generic anomaly or data‑quality signal.") := by
  intro t
  unfold AlertsPanel.getAlertClassification
  split_ifs with h1 h2 h3 h4 h5 h6 h7
  · subst h1; exact ⟨by decide, by decide, fun hmem => absurd (by decide) hmem⟩
  · subst h2; exact ⟨by decide, by decide, fun hmem => absurd (by decide) hmem⟩
  · subst h3; exact ⟨by decide, by decide, fun hmem => absurd (by decide) hmem⟩
  · subst h4; exact ⟨by decide, by decide, fun hmem => absurd (by decide) hmem⟩
  · subst h5; exact ⟨by decide, by decide, fun hmem => absurd (by decide) hmem⟩
  · subst h6; exact ⟨by decide, by decide, fun hmem => absurd (by decide) hmem⟩
  · subst h7; exact ⟨by decide, by decide, fun hmem => absurd (by decide) hmem⟩
  · refine ⟨Or.inr rfl, ?_, fun _ => rfl⟩
    constructor
    · intro h; exact absurd h (by decide)
    · intro hmem
      simp only [integrityTypes, List.mem_cons, List.not_mem_nil, or_false]
        at hmem
      rcases hmem with h | h | h | h
      · exact absurd h h1
      · exact absurd h h2
      · exact absurd h h3
      · exact absurd h h4

/-- C10 witness: an arbitrary unrecognized string renders with the generic
suspicious classification. -/
theorem getAlertClassification_total_witness :
    "SOME_FUTURE_RULE" ∉ alertTypes ∧
    (AlertsPanel.getAlertClassification "SOME_FUTURE_RULE").purpose =
      "Generic anomaly or data‑quality signal." :=
  ⟨by decide, (getAlertClassification_total "SOME_FUTURE_RULE").2.2 (by decide)⟩

/-- Helper: the processed counter of a replay run counts every attempted
point, whether its unit committed or was rolled back. -/
theorem replayRun_processed :
    ∀ (items : List ReplayItem) (db : Db) (c : ReplayCounters),
      (replayRun db c items).2.processed = c.processed + items.length := by
  intro items
  induction items with
  | nil => intro db c; simp [replayRun]
  | cons item rest ih =>
      intro db c
      obtain ⟨fail, pt, accepted⟩ := item
      have hstep : ∀ db2 c2,
          ingestPoint fail db2 c2 pt accepted =
            ((ingestPoint fail db2 c2 pt accepted).1,
              ⟨c2.processed + 1, (ingestPoint fail db2 c2 pt accepted).2.skipped⟩) := by
        intro db2 c2
        unfold ingestPoint
        cases applyUnit fail db2 pt accepted <;> rfl
      show (replayRun (ingestPoint fail db c pt accepted).1
          (ingestPoint fail db c pt accepted).2 rest).2.processed =
        c.processed + (rest.length + 1)
      rw [ih]
      have : (ingestPoint fail db c pt accepted).2.processed = c.processed + 1 := by
        unfold ingestPoint
        cases applyUnit fail db pt accepted <;> rfl
      omega

/-- C1 counterexample: the replay_status record declared by the source has no
field named processed_count; the cumulative counter field is named
processed (src/frontend/src/api/client.ts lines 194-199, src/unnamed/part_002,
and the GET /v1/replay/status example of src/API_DOCUMENTATION.md). -/
theorem replay_status_no_processed_count_field :
    "processed_count" ∉ clientReplayStatusFields ∧
    "processed" ∈ clientReplayStatusFields ∧
    "processed_count" ∉ typesReplayStatusFields ∧
    "processed_count" ∉ apiDocReplayStatusFields := by
  refine ⟨by decide, by decide, by decide, by decide⟩

/-- C1 amended: every source that declares the replay_status record gives it
exactly the four fields running, processed, last_timestamp and stop_requested,
in that order, and the processed field is the cumulative number of points
attempted in the session (spec-modelled driver: it counts every point of the
run). -/
theorem replay_status_fields :
    clientReplayStatusFields =
      ["running", "processed", "last_timestamp", "stop_requested"] ∧
    typesReplayStatusFields = clientReplayStatusFields ∧
    apiDocReplayStatusFields = clientReplayStatusFields ∧
    ∀ (items : List ReplayItem) (db : Db),
      (replayRun db ⟨0, 0⟩ items).2.processed = items.length := by
  refine ⟨rfl, rfl, rfl, ?_⟩
  intro items db
  rw [replayRun_processed]
  show 0 + items.length = items.length
  omega

/-- C7: update_alert_status accepts exactly the four known status values and
then changes only the status and notes fields; any other status is rejected
with the alert left unchanged; alert creation always starts at status new. -/
theorem update_alert_status_spec :
    ∀ (a : Alert) (s : String) (n : Option String),
      (s ∈ alertStatuses →
        ∃ b, update_alert_status a s n = Except.ok b ∧
          b.status = s ∧ b.notes = n ∧
          b.id = a.id ∧ b.timestamp = a.timestamp ∧ b.mmsi = a.mmsi ∧
          b.type = a.type ∧ b.severity = a.severity ∧
          b.summary = a.summary ∧ b.evidence = a.evidence) ∧
      (s ∉ alertStatuses →
        update_alert_status a s n = Except.error "invalid status") ∧
      (∀ (id : Nat) (ts : ℚ) (m : String) (c : Candidate) (sm : String)
          (ev : List (String × String)),
        (mkAlert id ts m c sm ev).status = "new") := by
  intro a s n
  refine ⟨?_, ?_, fun _ _ _ _ _ _ => rfl⟩
  · intro hs
    refine ⟨{ a with status := s, notes := n }, ?_, rfl, rfl, rfl, rfl, rfl,
      rfl, rfl, rfl, rfl⟩
    unfold update_alert_status
    rw [if_pos hs]
  · intro hs
    unfold update_alert_status
    rw [if_neg hs]

/-- C7 witness: at a concrete alert, the status reviewed is applied in place
and the status bogus is rejected. -/
theorem update_alert_status_spec_witness :
    (∃ b, update_alert_status
        ⟨1, 0, "123456789", "TELEPORT", 85, "teleport", [], "new", none⟩
        "reviewed" (some "checked") = Except.ok b ∧
      b.status = "reviewed" ∧ b.notes = some "checked" ∧
      b.id = 1 ∧ b.timestamp = 0 ∧ b.mmsi = "123456789" ∧
      b.type = "TELEPORT" ∧ b.severity = 85 ∧
      b.summary = "teleport" ∧ b.evidence = []) ∧
    update_alert_status
        ⟨1, 0, "123456789", "TELEPORT", 85, "teleport", [], "new", none⟩
        "bogus" none = Except.error "invalid status" :=
  ⟨(update_alert_status_spec
      ⟨1, 0, "123456789", "TELEPORT", 85, "teleport", [], "new", none⟩
      "reviewed" (some "checked")).1 (by decide),
   (update_alert_status_spec
      ⟨1, 0, "123456789", "TELEPORT", 85, "teleport", [], "new", none⟩
      "bogus" none).2.1 (by decide)⟩

/-- C8: start_replay rejects a speedup below 0.1 (in particular 0) without
leaving Idle, accepts every speedup at least 0.1, and the pacing sleep
vanishes in the limit of large speedup: past some speedup bound the sleep is
below any positive epsilon. -/
theorem start_replay_speedup :
    (∀ s : ℚ, s < min_speedup →
      start_replay ReplayPhase.Idle s =
        (ReplayPhase.Idle, some "speedup must be at least 0.1")) ∧
    start_replay ReplayPhase.Idle 0 =
      (ReplayPhase.Idle, some "speedup must be at least 0.1") ∧
    (∀ s : ℚ, min_speedup ≤ s →
      start_replay ReplayPhase.Idle s = (ReplayPhase.Running, none)) ∧
    (∀ gap elapsed eps : ℚ, 0 ≤ gap → 0 ≤ elapsed → 0 < eps →
      ∃ S : ℚ, ∀ s : ℚ, S ≤ s → sleepTime gap s elapsed ≤ eps) := by
  refine ⟨?_, ?_, ?_, ?_⟩
  · intro s hs
    unfold start_replay
    rw [if_neg (by simp), if_pos hs]
  · unfold start_replay
    rw [if_neg (by simp)]
    norm_num [min_speedup]
  · intro s hs
    unfold start_replay
    rw [if_neg (by simp), if_neg (not_lt.mpr hs)]
  · intro gap elapsed eps hgap helapsed heps
    refine ⟨max 1 (gap / eps), ?_⟩
    intro s hs
    have hs1 : (1 : ℚ) ≤ s := le_trans (le_max_left _ _) hs
    have hspos : (0 : ℚ) < s := lt_of_lt_of_le one_pos hs1
    have hge : gap / eps ≤ s := le_trans (le_max_right _ _) hs
    have hdiv : gap / s ≤ eps := by
      rw [div_le_iff₀ hspos]
      calc gap = eps * (gap / eps) := by
            field_simp
        _ ≤ eps * s := by
            exact mul_le_mul_of_nonneg_left hge (le_of_lt heps)
    unfold sleepTime pacingDelay
    refine max_le (le_of_lt heps) ?_
    have : gap / s - elapsed ≤ gap / s := by linarith
    exact le_trans this hdiv

/-- C8 witness: speedup 0 is rejected in Idle, speedup 100 starts, and past
some bound the sleep for a one-hour source gap is at most one second. -/
theorem start_replay_speedup_witness :
    start_replay ReplayPhase.Idle 0 =
      (ReplayPhase.Idle, some "speedup must be at least 0.1") ∧
    start_replay ReplayPhase.Idle 100 = (ReplayPhase.Running, none) ∧
    ∃ S : ℚ, ∀ s : ℚ, S ≤ s → sleepTime 3600 s 0 ≤ 1 :=
  ⟨start_replay_speedup.2.1,
   start_replay_speedup.2.2.1 100 (by norm_num [min_speedup]),
   start_replay_speedup.2.2.2 3600 0 1 (by norm_num) (by norm_num) (by norm_num)⟩

/-- Helper: the implied speed of scenario S1 exceeds 5000 knots. -/
theorem s1_implied_speed_large :
    5000 < implied_speed_kn s1distance_m 60 := by
  unfold implied_speed_kn s1distance_m knots_per_mps
  norm_num

/-- Helper: full rule-engine evaluation of the scenario-S1 pair: a TELEPORT
candidate at severity 100 and an ACCELERATION candidate at severity 85. -/
theorem s1_eval :
    evalRules (some s1p1) s1p2 s1distance_m =
      [⟨"TELEPORT", 100, some "short", none⟩,
       ⟨"ACCELERATION", 85, none, none⟩] := by
  have hV := s1_implied_speed_large
  have hdt : dt_sec s1p1 s1p2 = 60 := by norm_num [dt_sec, s1p1, s1p2]
  simp only [evalRules, hdt]
  rw [if_pos (by norm_num : (0:ℚ) < 60)]
  have hT : teleportRule 60 (implied_speed_kn s1distance_m 60) =
      some ⟨"TELEPORT", 100, some "short", none⟩ := by
    unfold teleportRule
    rw [if_pos ⟨by norm_num, by norm_num,
      by unfold teleport_speed_knots_short; linarith⟩]
    unfold clamp teleport_speed_knots_short
    rw [min_eq_right (by linarith), max_eq_right (by norm_num)]
  have hT2 : teleportT2Rule 60 (implied_speed_kn s1distance_m 60) s1distance_m =
      none := by
    unfold teleportT2Rule
    rw [if_neg, if_neg]
    · rintro ⟨h, -⟩; norm_num at h
    · rintro ⟨-, -, -, hlt⟩
      unfold teleportThreshold at hlt
      rw [if_pos (by norm_num : (60:ℚ) ≤ 120)] at hlt
      unfold teleport_speed_knots_short at hlt
      linarith
  have hPI : positionInvalidRule (some s1p1) s1p2 s1distance_m 60 = none := by
    unfold positionInvalidRule
    rw [if_neg (by norm_num [s1p2]), if_neg]
    · show (if _ then _ else _) = _
      rw [if_neg]
      rintro ⟨hd, -⟩
      norm_num [s1distance_m] at hd
    · rintro ⟨ha, -⟩
      rw [abs_lt] at ha
      norm_num [s1p2] at ha
  have hrate : turn_rate_deg_s 90 90 60 = 0 := by
    norm_num [turn_rate_deg_s, angle_diff_deg, qmod360]
  have hch : angleChannel s1p1 s1p2 = some ("heading", 90, 90) := by
    norm_num [angleChannel, effHeading, s1p1, s1p2]
  have hTR : turnRateRule s1p1 s1p2 60 (implied_speed_kn s1distance_m 60) =
      none := by
    unfold turnRateRule
    rw [hch]
    show (if _ then _ else _) = _
    rw [if_neg]
    rintro ⟨-, -, -, hr⟩
    rw [hrate] at hr
    unfold max_turn_rate_deg_per_sec at hr
    linarith
  have hTR2 : turnRateT2Rule s1p1 s1p2 60 (implied_speed_kn s1distance_m 60) =
      none := by
    unfold turnRateT2Rule
    rw [hch]
    show (if _ then _ else _) = _
    rw [if_neg]
    rintro ⟨-, -, hr, -⟩
    rw [hrate] at hr
    linarith
  have habs : |(12:ℚ) - implied_speed_kn s1distance_m 60| =
      implied_speed_kn s1distance_m 60 - 12 := by
    rw [abs_sub_comm, abs_of_nonneg (by linarith)]
  have hACC : accelerationRule s1p1 s1p2 60 (implied_speed_kn s1distance_m 60) =
      some ⟨"ACCELERATION", 85, none, none⟩ := by
    show (if _ then _ else _) = _
    rw [if_pos ⟨by norm_num, by norm_num, Or.inl (by rw [habs]; linarith)⟩]
    unfold clamp
    rw [habs, min_eq_right (by linarith), max_eq_right (by norm_num)]
  have hHC : headingCogRule s1p1 s1p2 60 (implied_speed_kn s1distance_m 60) =
      none := by
    norm_num [headingCogRule, effHeading, angleChannel, speedForCheck,
      turn_rate_deg_s, angle_diff_deg, qmod360, s1p1, s1p2,
      min_speed_for_turn_check_knots]
  rw [hT, hT2, hPI, hTR, hTR2, hACC, hHC]
  rfl

/-- C2: the TELEPORT rule fires exactly on the two tiers of the spec, its
severity is the clamped linear form of the speed excess over the tier
threshold, and on the scenario-S1 pair (60 s gap, implied speed above
5000 kn) the rule engine emits exactly one TELEPORT candidate, tier short,
severity 100. -/
theorem teleport_rule_spec :
    (∀ dt speed : ℚ, (teleportRule dt speed).isSome ↔
      ((0 < dt ∧ dt ≤ 120 ∧ 60 ≤ speed) ∨
       (120 < dt ∧ dt ≤ 1800 ∧ 100 ≤ speed))) ∧
    (∀ dt speed : ℚ, ∀ c : Candidate, teleportRule dt speed = some c →
      c.type = "TELEPORT" ∧
      c.severity = clamp (40 + 0.4 * (speed - teleportThreshold dt)) 70 100 ∧
      70 ≤ c.severity ∧ c.severity ≤ 100) ∧
    (∀ speed : ℚ, 5000 < speed →
      teleportRule 60 speed = some ⟨"TELEPORT", 100, some "short", none⟩) ∧
    ((evalRules (some s1p1) s1p2 s1distance_m).filter
        (fun c => decide (c.type = "TELEPORT"))) =
      [⟨"TELEPORT", 100, some "short", none⟩] := by
  refine ⟨?_, ?_, ?_, by rw [s1_eval]; rfl⟩
  · intro dt speed
    unfold teleportRule
    split_ifs with h1 h2
    · simpa [teleport_speed_knots_short] using Or.inl h1
    · simp only [Option.isSome_some, true_iff]
      right
      simpa [teleport_speed_knots_medium] using h2
    · simp only [Option.isSome_none, Bool.false_eq_true, false_iff]
      push_neg
      constructor
      · intro ha hb
        by_contra hc
        push_neg at hc
        exact h1 ⟨ha, hb, by
          unfold teleport_speed_knots_short; linarith⟩
      · intro ha hb
        by_contra hc
        push_neg at hc
        exact h2 ⟨ha, hb, by
          unfold teleport_speed_knots_medium; linarith⟩
  · intro dt speed c hc
    unfold teleportRule at hc
    split_ifs at hc with h1 h2
    · obtain ⟨-, hdt, -⟩ := h1
      obtain rfl := (Option.some.injEq _ _).mp hc
      have ht : teleportThreshold dt = teleport_speed_knots_short := by
        unfold teleportThreshold; rw [if_pos hdt]
      exact ⟨rfl, by rw [ht], le_max_left _ _,
        max_le (by norm_num) (min_le_right _ _)⟩
    · obtain ⟨hdt, -, -⟩ := h2
      obtain rfl := (Option.some.injEq _ _).mp hc
      have ht : teleportThreshold dt = teleport_speed_knots_medium := by
        unfold teleportThreshold; rw [if_neg (not_le.mpr hdt)]
      exact ⟨rfl, by rw [ht], le_max_left _ _,
        max_le (by norm_num) (min_le_right _ _)⟩
  · intro speed hspeed
    unfold teleportRule
    rw [if_pos ⟨by norm_num, by norm_num,
      by unfold teleport_speed_knots_short; linarith⟩]
    have h100 : (100 : ℚ) ≤ 40 + 0.4 * (speed - teleport_speed_knots_short) := by
      unfold teleport_speed_knots_short
      linarith
    have : clamp (40 + 0.4 * (speed - teleport_speed_knots_short)) 70 100 = 100 := by
      unfold clamp
      rw [min_eq_right h100, max_eq_right (by norm_num)]
    rw [this]

/-- C2 witness: at implied speed 5500 kn and a 60 s gap the rule fires with
tier short and severity 100. -/
theorem teleport_rule_spec_witness :
    teleportRule 60 5500 = some ⟨"TELEPORT", 100, some "short", none⟩ :=
  teleport_rule_spec.2.2.1 5500 (by norm_num)

/-- Helper: lower bound of a clamp. -/
theorem le_clamp (x lo hi : ℚ) : lo ≤ clamp x lo hi := le_max_left _ _

/-- Helper: upper bound of a clamp. -/
theorem clamp_le (x lo hi : ℚ) (h : lo ≤ hi) : clamp x lo hi ≤ hi :=
  max_le h (min_le_right _ _)

/-- Helper: a candidate emitted by any of the seven rules has its rule type
and a severity within the rule band, all inside the closed interval from 0
to 100. -/
theorem candidate_bounds :
    ∀ (prev : Option AisPoint) (curr : AisPoint) (distance_m : ℚ)
      (c : Candidate), c ∈ evalRules prev curr distance_m →
        c.type ∈ alertTypes ∧ 0 ≤ c.severity ∧ c.severity ≤ 100 := by
  have hT : ∀ dt speed : ℚ, ∀ c : Candidate, teleportRule dt speed = some c →
      c.type ∈ alertTypes ∧ 0 ≤ c.severity ∧ c.severity ≤ 100 := by
    intro dt speed c hc
    unfold teleportRule at hc
    split_ifs at hc <;> obtain rfl := (Option.some.injEq _ _).mp hc <;>
      exact ⟨by simp [alertTypes], le_trans (by norm_num) (le_clamp _ _ _),
        clamp_le _ _ _ (by norm_num)⟩
  have hT2 : ∀ dt speed d : ℚ, ∀ c : Candidate,
      teleportT2Rule dt speed d = some c →
      c.type ∈ alertTypes ∧ 0 ≤ c.severity ∧ c.severity ≤ 100 := by
    intro dt speed d c hc
    unfold teleportT2Rule at hc
    split_ifs at hc <;> obtain rfl := (Option.some.injEq _ _).mp hc <;>
      exact ⟨by simp [alertTypes], le_trans (by norm_num) (le_clamp _ _ _),
        le_trans (clamp_le _ _ _ (by norm_num)) (by norm_num)⟩
  have hPI : ∀ (prev : Option AisPoint) (curr : AisPoint) (d dt : ℚ),
      ∀ c : Candidate, positionInvalidRule prev curr d dt = some c →
      c.type ∈ alertTypes ∧ 0 ≤ c.severity ∧ c.severity ≤ 100 := by
    intro prev curr d dt c hc
    unfold positionInvalidRule at hc
    split_ifs at hc
    · obtain rfl := (Option.some.injEq _ _).mp hc
      exact ⟨by simp [alertTypes], by norm_num, by norm_num⟩
    · obtain rfl := (Option.some.injEq _ _).mp hc
      exact ⟨by simp [alertTypes], by norm_num, by norm_num⟩
    · cases prev with
      | none => exact absurd hc (by simp)
      | some p =>
          simp only at hc
          split_ifs at hc
          obtain rfl := (Option.some.injEq _ _).mp hc
          exact ⟨by simp [alertTypes], by norm_num, by norm_num⟩
  have hTR : ∀ (p curr : AisPoint) (dt implied : ℚ), ∀ c : Candidate,
      turnRateRule p curr dt implied = some c →
      c.type ∈ alertTypes ∧ 0 ≤ c.severity ∧ c.severity ≤ 100 := by
    intro p curr dt implied c hc
    unfold turnRateRule at hc
    rcases hch : angleChannel p curr with - | ⟨t, a, b⟩ <;>
      simp only [hch] at hc
    · exact absurd hc (by simp)
    · split_ifs at hc
      obtain rfl := (Option.some.injEq _ _).mp hc
      exact ⟨by simp [alertTypes], le_trans (by norm_num) (le_clamp _ _ _),
        le_trans (clamp_le _ _ _ (by norm_num)) (by norm_num)⟩
  have hTR2 : ∀ (p curr : AisPoint) (dt implied : ℚ), ∀ c : Candidate,
      turnRateT2Rule p curr dt implied = some c →
      c.type ∈ alertTypes ∧ 0 ≤ c.severity ∧ c.severity ≤ 100 := by
    intro p curr dt implied c hc
    unfold turnRateT2Rule at hc
    rcases hch : angleChannel p curr with - | ⟨t, a, b⟩ <;>
      simp only [hch] at hc
    · exact absurd hc (by simp)
    · split_ifs at hc <;> obtain rfl := (Option.some.injEq _ _).mp hc <;>
        exact ⟨by simp [alertTypes], le_trans (by norm_num) (le_clamp _ _ _),
          le_trans (clamp_le _ _ _ (by norm_num)) (by norm_num)⟩
  have hACC : ∀ (p curr : AisPoint) (dt implied : ℚ), ∀ c : Candidate,
      accelerationRule p curr dt implied = some c →
      c.type ∈ alertTypes ∧ 0 ≤ c.severity ∧ c.severity ≤ 100 := by
    intro p curr dt implied c hc
    unfold accelerationRule at hc
    rcases hps : p.sog with - | ps <;> rcases hcs : curr.sog with - | cs <;>
      simp only [hps, hcs] at hc
    · exact absurd hc (by simp)
    · exact absurd hc (by simp)
    · exact absurd hc (by simp)
    · split_ifs at hc
      obtain rfl := (Option.some.injEq _ _).mp hc
      exact ⟨by simp [alertTypes], le_trans (by norm_num) (le_clamp _ _ _),
        le_trans (clamp_le _ _ _ (by norm_num)) (by norm_num)⟩
  have hHC : ∀ (p curr : AisPoint) (dt implied : ℚ), ∀ c : Candidate,
      headingCogRule p curr dt implied = some c →
      c.type ∈ alertTypes ∧ 0 ≤ c.severity ∧ c.severity ≤ 100 := by
    intro p curr dt implied c hc
    unfold headingCogRule at hc
    rcases hh : effHeading curr with - | h <;> rcases hcg : curr.cog with - | cg <;>
      simp only [hh, hcg] at hc
    · exact absurd hc (by simp)
    · exact absurd hc (by simp)
    · exact absurd hc (by simp)
    · rcases hch : angleChannel p curr with - | ⟨t, a, b⟩ <;>
        simp only [hch] at hc
      · exact absurd hc (by simp)
      · split_ifs at hc
        obtain rfl := (Option.some.injEq _ _).mp hc
        exact ⟨by simp [alertTypes], le_trans (by norm_num) (le_clamp _ _ _),
          le_trans (clamp_le _ _ _ (by norm_num)) (by norm_num)⟩
  intro prev curr distance_m c hc
  cases prev with
  | none =>
      simp only [evalRules, Option.mem_toList, Option.mem_def] at hc
      exact hPI none curr distance_m 0 c hc
  | some p =>
      simp only [evalRules, List.mem_filterMap, id_eq, List.mem_cons,
        List.not_mem_nil, or_false] at hc
      obtain ⟨a, ha, rfl⟩ := hc
      rcases ha with h | h | h | h | h | h | h
      · exact hT _ _ _ h.symm
      · exact hT2 _ _ _ _ h.symm
      · exact hPI _ _ _ _ _ h.symm
      · exact hTR _ _ _ _ _ h.symm
      · exact hTR2 _ _ _ _ _ h.symm
      · exact hACC _ _ _ _ _ h.symm
      · exact hHC _ _ _ _ _ h.symm

/-- C6: every candidate alert the rule engine can produce carries one of the
seven closed alert types, and its persisted integer severity lies between 0
and 100. -/
theorem alert_type_severity_closed :
    ∀ (prev : Option AisPoint) (curr : AisPoint) (distance_m : ℚ)
      (c : Candidate), c ∈ evalRules prev curr distance_m →
        c.type ∈ alertTypes ∧ 0 ≤ severityInt c ∧ severityInt c ≤ 100 := by
  intro prev curr distance_m c hc
  obtain ⟨hty, h0, h100⟩ := candidate_bounds prev curr distance_m c hc
  refine ⟨hty, ?_, ?_⟩
  · exact Int.le_floor.mpr (by exact_mod_cast h0)
  · have : (⌊c.severity⌋ : ℤ) ≤ ⌊(100 : ℚ)⌋ := Int.floor_le_floor h100
    simpa using this

/-- C6 witness: the scenario-S4 point (latitude 95) yields a
POSITION_INVALID candidate whose type is in the closed enum and whose
integer severity is 75, inside the 0 to 100 band. -/
theorem alert_type_severity_closed_witness :
    (⟨"POSITION_INVALID", 75, none, some "out_of_bounds"⟩ : Candidate) ∈
        evalRules none ⟨"400000001", 0, 95, 0, none, none, none⟩ 0 ∧
      "POSITION_INVALID" ∈ alertTypes ∧
      0 ≤ severityInt ⟨"POSITION_INVALID", 75, none, some "out_of_bounds"⟩ ∧
      severityInt ⟨"POSITION_INVALID", 75, none, some "out_of_bounds"⟩ ≤ 100 := by
  have hmem : (⟨"POSITION_INVALID", 75, none, some "out_of_bounds"⟩ : Candidate) ∈
      evalRules none ⟨"400000001", 0, 95, 0, none, none, none⟩ 0 := by
    simp only [evalRules]
    unfold positionInvalidRule
    rw [if_pos (by norm_num)]
    simp
  exact ⟨hmem, alert_type_severity_closed none _ 0 _ hmem⟩

/-- Helper: looking up the freshly upserted key returns the new value. -/
theorem alookup_aupsert_self {α β : Type} [DecidableEq α]
    (l : List (α × β)) (k : α) (v : β) : alookup (aupsert l k v) k = some v := by
  induction l with
  | nil => simp [aupsert, alookup]
  | cons kv rest ih =>
      obtain ⟨k2, v2⟩ := kv
      by_cases h : k2 = k
      · subst h
        simp [aupsert, alookup]
      · simp only [aupsert, if_neg h, alookup]
        exact ih

/-- Helper: upserting one key does not change the lookup of another. -/
theorem alookup_aupsert_ne {α β : Type} [DecidableEq α]
    (l : List (α × β)) (k k2 : α) (v : β) (h : k ≠ k2) :
    alookup (aupsert l k v) k2 = alookup l k2 := by
  induction l with
  | nil => simp [aupsert, alookup, if_neg h]
  | cons kv rest ih =>
      obtain ⟨k3, v3⟩ := kv
      by_cases h3 : k3 = k
      · subst h3
        simp only [aupsert, if_pos rfl, alookup]
        rw [if_neg h, if_neg h]
      · simp only [aupsert, if_neg h3, alookup]
        by_cases h4 : k3 = k2
        · rw [if_pos h4, if_pos h4]
        · rw [if_neg h4, if_neg h4]
          exact ih

/-- Helper: a push never leaves more than the window size in the ring. -/
theorem pushRing_length_le (ring : List AisPoint) (p : AisPoint) :
    (pushRing ring p).length ≤ track_window_size := by
  simp only [pushRing]
  split_ifs with h
  · simp only [List.length_drop]
    omega
  · omega

/-- Helper: the ring of the pushed vessel in the updated store is the pushed
ring. -/
theorem getRing_pushPoint_self (st : TrackStore) (p : AisPoint) :
    getRing (pushPoint st p).1 p.mmsi = pushRing (getRing st p.mmsi) p := by
  unfold pushPoint getRing
  simp [alookup_aupsert_self]

/-- Helper: pushing one vessel leaves every other ring unchanged. -/
theorem getRing_pushPoint_ne (st : TrackStore) (p : AisPoint) (m : String)
    (h : m ≠ p.mmsi) : getRing (pushPoint st p).1 m = getRing st m := by
  unfold pushPoint getRing
  rw [alookup_aupsert_ne _ _ _ _ (fun he => h he.symm)]

/-- Helper: every store reachable by pushes keeps all rings within the
window. -/
theorem runPushes_ring_le :
    ∀ (ps : List AisPoint) (st : TrackStore),
      (∀ m, (getRing st m).length ≤ track_window_size) →
      ∀ m, (getRing (runPushes st ps) m).length ≤ track_window_size := by
  intro ps
  induction ps with
  | nil => intro st h m; exact h m
  | cons p rest ih =>
      intro st h m
      show (getRing (runPushes (pushPoint st p).1 rest) m).length ≤ _
      refine ih (pushPoint st p).1 ?_ m
      intro m2
      by_cases hm : m2 = p.mmsi
      · subst hm
        rw [getRing_pushPoint_self]
        exact pushRing_length_le _ _
      · rw [getRing_pushPoint_ne st p m2 hm]
        exact h m2

/-- C4: every reachable track store holds at most 5 points per vessel; a
push below capacity appends, a push at capacity evicts exactly the oldest
point (FIFO), and push returns the ring after insertion, oldest first with
the new point last. -/
theorem track_store_window :
    (∀ (ps : List AisPoint) (m : String),
      (getRing (runPushes [] ps) m).length ≤ track_window_size) ∧
    (∀ (st : TrackStore) (p : AisPoint),
      (getRing st p.mmsi).length < track_window_size →
        (pushPoint st p).2 = getRing st p.mmsi ++ [p]) ∧
    (∀ (st : TrackStore) (p : AisPoint),
      (getRing st p.mmsi).length = track_window_size →
        (pushPoint st p).2 = (getRing st p.mmsi).tail ++ [p]) ∧
    (∀ (st : TrackStore) (p : AisPoint),
      (pushPoint st p).2 = getRing (pushPoint st p).1 p.mmsi ∧
      (pushPoint st p).2.getLast? = some p) := by
  refine ⟨?_, ?_, ?_, ?_⟩
  · intro ps m
    refine runPushes_ring_le ps [] ?_ m
    intro m2
    simp [getRing, alookup]
  · intro st p hlen
    show pushRing (getRing st p.mmsi) p = _
    simp only [pushRing]
    rw [if_neg]
    simp only [List.length_append, List.length_cons, List.length_nil]
    omega
  · intro st p hlen
    show pushRing (getRing st p.mmsi) p = _
    simp only [pushRing]
    have hlen2 : (getRing st p.mmsi ++ [p]).length = track_window_size + 1 := by
      simp [hlen]
    rw [hlen2]
    rw [if_pos (show track_window_size < track_window_size + 1 by omega)]
    have hone : track_window_size + 1 - track_window_size = 1 := by omega
    rw [hone]
    have hle : 1 ≤ (getRing st p.mmsi).length := by
      rw [hlen]; norm_num [track_window_size]
    rw [List.drop_append_of_le_length hle, List.drop_one]
  · intro st p
    refine ⟨(getRing_pushPoint_self st p).symm, ?_⟩
    show (pushRing (getRing st p.mmsi) p).getLast? = some p
    simp only [pushRing]
    split_ifs with h
    · have hle : (getRing st p.mmsi ++ [p]).length - track_window_size ≤
          (getRing st p.mmsi).length := by
        simp only [List.length_append, List.length_cons, List.length_nil,
          track_window_size] at h ⊢
        omega
      rw [List.drop_append_of_le_length hle]
      exact List.getLast?_concat _
    · exact List.getLast?_concat _

/-- C4 witness: after five pushes the ring of the vessel is full, and the
sixth push returns the ring with the oldest point evicted and the new point
last. -/
theorem track_store_window_witness :
    (getRing (runPushes [] [wpt 1, wpt 2, wpt 3, wpt 4, wpt 5])
        "123456789").length = track_window_size ∧
    (pushPoint (runPushes [] [wpt 1, wpt 2, wpt 3, wpt 4, wpt 5]) (wpt 6)).2 =
      (getRing (runPushes [] [wpt 1, wpt 2, wpt 3, wpt 4, wpt 5])
        "123456789").tail ++ [wpt 6] :=
  ⟨rfl, track_store_window.2.2.1 _ (wpt 6) rfl⟩

/-- C5: the per-point persistence unit is atomic — for every failure oracle
the committed state is either the full four-step application or exactly the
previous state with the point counted as skipped — and the replay loop
attempts every point regardless of failures. -/
theorem ingestion_unit_atomic :
    (∀ (fail : Nat → Bool) (db : Db) (c : ReplayCounters) (pt : AisPoint)
        (acc : List Candidate),
      (applyUnit fail db pt acc = Except.ok (fullApply db pt acc) ∧
        ingestPoint fail db c pt acc =
          (fullApply db pt acc, ⟨c.processed + 1, c.skipped⟩)) ∨
      (∃ e, applyUnit fail db pt acc = Except.error e ∧
        ingestPoint fail db c pt acc = (db, ⟨c.processed + 1, c.skipped + 1⟩))) ∧
    (∀ (items : List ReplayItem) (db : Db) (c : ReplayCounters),
      (replayRun db c items).2.processed = c.processed + items.length) := by
  refine ⟨?_, replayRun_processed⟩
  intro fail db c pt acc
  cases h0 : fail 0 with
  | true =>
      have hA : applyUnit fail db pt acc =
          Except.error "upsert VesselLatest failed" := by
        simp [applyUnit, h0]
      exact Or.inr ⟨_, hA, by simp [ingestPoint, hA]⟩
  | false =>
  cases h1 : fail 1 with
  | true =>
      have hA : applyUnit fail db pt acc =
          Except.error "insert VesselPosition failed" := by
        simp [applyUnit, h0, h1]
      exact Or.inr ⟨_, hA, by simp [ingestPoint, hA]⟩
  | false =>
  cases h2 : fail 2 with
  | true =>
      have hA : applyUnit fail db pt acc =
          Except.error "insert Alert failed" := by
        simp [applyUnit, h0, h1, h2]
      exact Or.inr ⟨_, hA, by simp [ingestPoint, hA]⟩
  | false =>
  cases h3 : fail 3 with
  | true =>
      have hA : applyUnit fail db pt acc =
          Except.error "update last_alert_severity failed" := by
        simp [applyUnit, h0, h1, h2, h3]
      exact Or.inr ⟨_, hA, by simp [ingestPoint, hA]⟩
  | false =>
      have hA : applyUnit fail db pt acc =
          Except.ok (fullApply db pt acc) := by
        simp [applyUnit, fullApply, h0, h1, h2, h3]
      exact Or.inl ⟨hA, by simp [ingestPoint, hA]⟩

/-- Helper: running the cooldown gate from any table, the accepted
timestamps of one key are separated by at least the interval link by link,
and each of them clears the stored row of that key by at least the
interval. -/
theorem runCooldown_chain (cd : ℚ) (hcd : 0 ≤ cd) (key : CooldownKey) :
    ∀ (cs rows : List (CooldownKey × ℚ)),
      (∀ last, alookup rows key = some last →
        ∀ t ∈ ((runCooldown cd rows cs).filter
            (fun c => decide (c.1 = key))).map (fun c => c.2), cd ≤ t - last) ∧
      List.Chain' (fun a b => cd ≤ b - a)
        (((runCooldown cd rows cs).filter
            (fun c => decide (c.1 = key))).map (fun c => c.2)) := by
  intro cs
  induction cs with
  | nil =>
      intro rows
      constructor
      · intro last _ t ht
        simp [runCooldown] at ht
      · simp [runCooldown]
  | cons c0 rest ih =>
      intro rows
      obtain ⟨k, t0⟩ := c0
      simp only [runCooldown]
      by_cases hacc : cooldownAccept cd rows k t0 = true
      · rw [if_pos hacc]
        by_cases hk : k = key
        · subst hk
          rw [List.filter_cons_of_pos (by simp), List.map_cons]
          obtain ⟨ih1, ih2⟩ := ih (aupsert rows k t0)
          have hlook : alookup (aupsert rows k t0) k = some t0 :=
            alookup_aupsert_self _ _ _
          have htail : ∀ t ∈ ((runCooldown cd (aupsert rows k t0) rest).filter
              (fun c => decide (c.1 = k))).map (fun c => c.2), cd ≤ t - t0 :=
            fun t ht => ih1 t0 hlook t ht
          constructor
          · intro last hlast t ht
            rcases List.mem_cons.mp ht with rfl | ht2
            · unfold cooldownAccept at hacc
              rw [hlast] at hacc
              exact of_decide_eq_true hacc
            · have hstep : cd ≤ t - t0 := htail t ht2
              have hhead : cd ≤ t0 - last := by
                unfold cooldownAccept at hacc
                rw [hlast] at hacc
                exact of_decide_eq_true hacc
              linarith
          · rw [List.chain'_cons']
            exact ⟨fun y hy => htail y (List.mem_of_mem_head? hy), ih2⟩
        · rw [List.filter_cons_of_neg (by simp [hk])]
          obtain ⟨ih1, ih2⟩ := ih (aupsert rows k t0)
          refine ⟨?_, ih2⟩
          intro last hlast t ht
          refine ih1 last ?_ t ht
          rw [alookup_aupsert_ne _ _ _ _ hk]
          exact hlast
      · rw [if_neg hacc]
        exact ih rows

/-- Helper: in a gap chain, every later element clears the head by at least
the interval. -/
theorem chain_gap_head (cd : ℚ) (hcd : 0 ≤ cd) :
    ∀ (l : List ℚ) (a : ℚ),
      List.Chain' (fun x y => cd ≤ y - x) (a :: l) → ∀ b ∈ l, cd ≤ b - a := by
  intro l
  induction l with
  | nil =>
      intro a _ b hb
      simp at hb
  | cons c l2 ih =>
      intro a hch b hb
      have h1 : cd ≤ c - a := (List.chain'_cons.mp hch).1
      have h2 := (List.chain'_cons.mp hch).2
      rcases List.mem_cons.mp hb with rfl | hb2
      · exact h1
      · have h3 := ih c h2 b hb2
        linarith

/-- Helper: two members of a gap chain that differ in value are separated by
at least the (positive) interval. -/
theorem chain_gap_mem (cd : ℚ) (hcd : 0 < cd) :
    ∀ (l : List ℚ), List.Chain' (fun x y => cd ≤ y - x) l →
      ∀ t1 ∈ l, ∀ t2 ∈ l, t1 < t2 → cd ≤ t2 - t1 := by
  intro l
  induction l with
  | nil =>
      intro _ t1 h1
      simp at h1
  | cons a l2 ih =>
      intro hch t1 h1 t2 h2 hlt
      have htail : List.Chain' (fun x y => cd ≤ y - x) l2 :=
        (List.chain'_cons'.mp hch).2
      rcases List.mem_cons.mp h1 with rfl | h1b
      · rcases List.mem_cons.mp h2 with rfl | h2b
        · exact absurd hlt (lt_irrefl _)
        · exact chain_gap_head cd (le_of_lt hcd) l2 t1 hch t2 h2b
      · rcases List.mem_cons.mp h2 with rfl | h2b
        · have h3 := chain_gap_head cd (le_of_lt hcd) l2 t2 hch t1 h1b
          linarith
        · exact ih htail t1 h1b t2 h2b hlt

/-- C3: the gate accepts a candidate iff no cooldown row exists for its
(vessel, rule) key or the candidate timestamp clears the stored timestamp by
at least the interval (default 300 s); consequently any two accepted source
timestamps of one key are separated by at least the interval — measured in
source timestamps, not wall clock. -/
theorem cooldown_min_separation (cd : ℚ) (hcd : 0 < cd) (key : CooldownKey)
    (cs : List (CooldownKey × ℚ)) (t1 t2 : ℚ)
    (h1 : t1 ∈ acceptedTs cd cs key) (h2 : t2 ∈ acceptedTs cd cs key)
    (hlt : t1 < t2) :
    alert_cooldown_sec = 300 ∧
    (∀ (rows : List (CooldownKey × ℚ)) (k : CooldownKey) (t : ℚ),
      cooldownAccept cd rows k t = true ↔
        (alookup rows k = none ∨
          ∃ last, alookup rows k = some last ∧ cd ≤ t - last)) ∧
    cd ≤ t2 - t1 := by
  refine ⟨rfl, ?_, ?_⟩
  · intro rows k t
    cases hl : alookup rows k with
    | none =>
        simp only [cooldownAccept, hl]
        simp
    | some last =>
        simp only [cooldownAccept, hl, decide_eq_true_eq]
        constructor
        · intro h
          exact Or.inr ⟨last, rfl, h⟩
        · rintro (h | ⟨l2, hl2, h⟩)
          · exact absurd h (by simp)
          · obtain rfl := (Option.some.injEq _ _).mp hl2
            exact h
  · have hchain := (runCooldown_chain cd (le_of_lt hcd) key cs []).2
    unfold acceptedTs at h1 h2
    exact chain_gap_mem cd hcd _ hchain t1 h1 t2 h2 hlt

/-- C3 witness: with the default 300 s interval, of three TELEPORT
candidates at 0 s, 60 s and 400 s only the first and the third are accepted,
and their separation clears the interval. -/
theorem cooldown_min_separation_witness :
    acceptedTs 300 [(("200000001", "TELEPORT"), 0), (("200000001", "TELEPORT"), 60),
        (("200000001", "TELEPORT"), 400)] ("200000001", "TELEPORT") =
      [0, 400] ∧
    (300 : ℚ) ≤ 400 - 0 := by
  have heval : acceptedTs 300
      [(("200000001", "TELEPORT"), 0), (("200000001", "TELEPORT"), 60),
        (("200000001", "TELEPORT"), 400)] ("200000001", "TELEPORT") =
      [0, 400] := by
    norm_num [acceptedTs, runCooldown, cooldownAccept, alookup, aupsert,
      decide_eq_true_eq, List.filter]
  refine ⟨heval, ?_⟩
  exact (cooldown_min_separation 300 (by norm_num) ("200000001", "TELEPORT")
    [(("200000001", "TELEPORT"), 0), (("200000001", "TELEPORT"), 60),
      (("200000001", "TELEPORT"), 400)] 0 400
    (by rw [heval]; simp) (by rw [heval]; simp) (by norm_num)).2.2

end AegisAIS
